import Mathlib

/-!
Shallow embedding of the vaultx hybrid clip storage
(`HybridClipStorage` in the repository's storage service).

Modelling conventions:
* Timestamps (`Date`) are naturals counting milliseconds since the epoch.
* The Fast Tier (`memoryClips`, a `Map<string, Clip>`) and the Durable
  Tier (Redis) are both modelled as total functions `String → Option Clip`;
  the Durable Tier's value serialization (ISO-8601 timestamps) round-trips,
  so the serialized record is identified with the `Clip` itself.  The
  Durable Tier's native TTL clock is external to the store and is not part
  of the modelled state; the `ttlSeconds` arguments are kept for fidelity
  but do not act on the state.
* `crypto.createHash("sha256")...` is modelled by an arbitrary hash
  function `hash : String → String` passed to each operation that hashes;
  none of the verified properties depend on which digest function is used.
* `crypto.randomBytes(16).toString("hex")` is modelled by passing the
  fresh token explicitly to `createClip`.
* Every interaction with the Durable Tier sits in a `try`/`catch` (or is
  skipped while `redisConnected` is false); a thrown error is modelled by
  the boolean `rerr` passed to each operation: when `rerr` is true every
  Durable Tier call performed by that operation throws and is caught, so
  it has no effect on the Durable Tier state and yields no data.
-/

namespace Vaultx

inductive ContentType where
  | text
  | url
  | code
deriving DecidableEq

/-- The `Clip` interface.  `password` holds the stored sha256 digest
(the plaintext is never stored). -/
structure Clip where
  id : String
  content : String
  contentType : ContentType
  createdAt : Nat
  expiresAt : Nat
  accessCount : Nat
  maxAccess : Option Nat
  password : Option String
  burnAfterReading : Bool
deriving DecidableEq

/-- The `CreateClipOptions` interface.  Optional fields are `Option`s;
JavaScript falsiness of the defaults (`|| 60`, `|| "text"`, `|| false`,
and the `options.password ? hash : undefined` test) is reproduced in
`createClip` below. -/
structure CreateClipOptions where
  content : String
  contentType : Option ContentType := none
  expirationMinutes : Option Nat := none
  password : Option String := none
  burnAfterReading : Option Bool := none
  maxAccess : Option Nat := none

/-- The projection returned by `getClipInfo`. -/
structure ClipInfo where
  createdAt : Nat
  expiresAt : Nat
  accessCount : Nat
  contentType : ContentType
deriving DecidableEq

/-- The mutable state of a `HybridClipStorage` instance: the Fast Tier
map, the Durable Tier key space, and the `redisConnected` flag. -/
structure StorageState where
  memoryClips : String → Option Clip
  redis : String → Option Clip
  redisConnected : Bool

/-- Point update of a key-value table (`Map.set` with `some v`,
`Map.delete` with `none`). -/
def setKey (m : String → Option Clip) (k : String) (v : Option Clip) :
    String → Option Clip :=
  fun x => if x = k then v else m x

/-- The `verifyPassword` helper: recompute the digest and compare. -/
def verifyPassword (hash : String → String) (password stored : String) : Bool :=
  decide (hash password = stored)

/-- The guard `clip.password && (!password || !verifyPassword(password,
clip.password))` of `getClip`.  `!password` is true both for a missing
password and for the empty string (JavaScript falsiness). -/
def passwordRejects (hash : String → String) (c : Clip)
    (password : Option String) : Bool :=
  match c.password with
  | none => false
  | some stored =>
    match password with
    | none => true
    | some p => if p = "" then true else !(verifyPassword hash p stored)

/-- The guard `clip.maxAccess && clip.accessCount >= clip.maxAccess` of
`getClip`; `maxAccess = 0` is falsy and disables the limit. -/
def maxAccessRejects (c : Clip) : Bool :=
  match c.maxAccess with
  | none => false
  | some 0 => false
  | some (k + 1) => decide (k + 1 ≤ c.accessCount)

/-- The expiry test `new Date() > clip.expiresAt`. -/
def isExpired (c : Clip) (now : Nat) : Bool :=
  decide (c.expiresAt < now)

/-- The default `options.expirationMinutes || 60` (0 is falsy). -/
def effectiveExpirationMinutes (o : CreateClipOptions) : Nat :=
  match o.expirationMinutes with
  | none => 60
  | some 0 => 60
  | some (m + 1) => m + 1

/-- The stored digest `options.password ? hashPassword(options.password)
: undefined` (an empty password is falsy and stores no gate). -/
def storedPasswordHash (hash : String → String) (o : CreateClipOptions) :
    Option String :=
  match o.password with
  | none => none
  | some p => if p = "" then none else some (hash p)

/-- The `Clip` record literal built by `createClip`. -/
def mkClip (hash : String → String) (token : String) (now : Nat)
    (o : CreateClipOptions) : Clip :=
  { id := token
    content := o.content
    contentType := o.contentType.getD ContentType.text
    createdAt := now
    expiresAt := now + effectiveExpirationMinutes o * 60 * 1000
    accessCount := 0
    maxAccess := o.maxAccess
    password := storedPasswordHash hash o
    burnAfterReading := o.burnAfterReading.getD false }

/-- `storeInRedis`: skipped while disconnected; `setex` errors are caught
and swallowed (`rerr` true), otherwise the key is written.  The TTL acts
only on the external Durable Tier clock, which is outside the model. -/
def storeInRedis (s : StorageState) (rerr : Bool) (token : String)
    (clip : Clip) (ttlSeconds : Int) : StorageState :=
  if s.redisConnected = false then s
  else if rerr then s
  else { s with redis := setKey s.redis token (some clip) }

/-- `getFromRedis`: skipped while disconnected; `get`/parse errors are
caught and yield `undefined` (`rerr` true). -/
def getFromRedis (s : StorageState) (rerr : Bool) (token : String) :
    Option Clip :=
  if s.redisConnected = false then none
  else if rerr then none
  else s.redis token

/-- `deleteClip`: delete from the Fast Tier, then (while connected)
`DEL` on the Durable Tier with errors caught (`redisDeleted` stays false
on error); returns whether either tier held the key. -/
def deleteClip (s : StorageState) (rerr : Bool) (token : String) :
    Bool × StorageState :=
  let memoryDeleted := (s.memoryClips token).isSome
  let s1 : StorageState :=
    { s with memoryClips := setKey s.memoryClips token none }
  if s.redisConnected then
    if rerr then (memoryDeleted, s1)
    else
      let redisDeleted := (s.redis token).isSome
      (memoryDeleted || redisDeleted,
       { s1 with redis := setKey s1.redis token none })
  else (memoryDeleted, s1)

/-- `createClip`: build the clip, write it to the Fast Tier
unconditionally, then mirror it best-effort to the Durable Tier with a
TTL of the full lifetime in seconds; return the token and expiry. -/
def createClip (hash : String → String) (s : StorageState) (rerr : Bool)
    (token : String) (now : Nat) (o : CreateClipOptions) :
    (String × Nat) × StorageState :=
  let clip := mkClip hash token now o
  let s1 : StorageState :=
    { s with memoryClips := setKey s.memoryClips token (some clip) }
  let s2 := storeInRedis s1 rerr token clip
    ((effectiveExpirationMinutes o * 60 : Nat) : Int)
  ((token, clip.expiresAt), s2)

/-- The lookup order of `getClip` and `getClipInfo`: Fast Tier first,
then (while connected) the Durable Tier. -/
def lookupClip (s : StorageState) (rerr : Bool) (token : String) :
    Option Clip :=
  match s.memoryClips token with
  | some c => some c
  | none => if s.redisConnected then getFromRedis s rerr token else none

/-- `getClip`: look the clip up (restoring a Durable Tier hit into the
Fast Tier), then check expiry, password and max-access in the source's
order with their deletion side effects, then increment `accessCount`,
persist to both tiers with the remaining lifetime as TTL, and finally
apply burn-after-reading deletion; the incremented clip is returned. -/
def getClip (hash : String → String) (s : StorageState) (rerr : Bool)
    (token : String) (password : Option String) (now : Nat) :
    Option Clip × StorageState :=
  match lookupClip s rerr token with
  | none => (none, s)
  | some clip =>
    let s1 : StorageState :=
      match s.memoryClips token with
      | some _ => s
      | none => { s with memoryClips := setKey s.memoryClips token (some clip) }
    if isExpired clip now then
      (none, (deleteClip s1 rerr token).2)
    else if passwordRejects hash clip password then
      (none, s1)
    else if maxAccessRejects clip then
      (none, (deleteClip s1 rerr token).2)
    else
      let clip2 := { clip with accessCount := clip.accessCount + 1 }
      let s2 : StorageState :=
        { s1 with memoryClips := setKey s1.memoryClips token (some clip2) }
      let s3 := storeInRedis s2 rerr token clip2
        (((clip2.expiresAt : Int) - (now : Int)) / 1000)
      if clip2.burnAfterReading then (some clip2, (deleteClip s3 rerr token).2)
      else (some clip2, s3)

/-- `getClipInfo`: same lookup order and expiry test as `getClip`, but
no restore write-back, no password or max-access check, no deletion and
no access-count increment; only metadata is returned. -/
def getClipInfo (s : StorageState) (rerr : Bool) (token : String)
    (now : Nat) : Option ClipInfo × StorageState :=
  match lookupClip s rerr token with
  | none => (none, s)
  | some clip =>
    if isExpired clip now then (none, s)
    else
      (some { createdAt := clip.createdAt
              expiresAt := clip.expiresAt
              accessCount := clip.accessCount
              contentType := clip.contentType }, s)

/-- `cleanupExpiredClips` (the Expiry Sweeper body): remove every Fast
Tier entry whose expiry has passed; the Durable Tier is untouched. -/
def cleanupExpiredClips (s : StorageState) (now : Nat) : StorageState :=
  { s with memoryClips := fun k =>
      match s.memoryClips k with
      | some c => if isExpired c now then none else some c
      | none => none }

/-- State effect of `getStats`: the source computes its statistics from
a snapshot of the Fast Tier and a best-effort `KEYS` count and performs
no write or delete on either tier, so the state is unchanged; the
returned record is not needed by any verified property. -/
def getStatsState (s : StorageState) : StorageState := s

/-- One public operation of the store, with its per-call inputs; each
operation carries the `rerr` fault flag for its Durable Tier calls. -/
inductive Op where
  | create (rerr : Bool) (token : String) (now : Nat) (options : CreateClipOptions)
  | get (rerr : Bool) (token : String) (password : Option String) (now : Nat)
  | info (rerr : Bool) (token : String) (now : Nat)
  | del (rerr : Bool) (token : String)
  | stats
  | sweep (now : Nat)

/-- State transition of one store operation. -/
def step (hash : String → String) (s : StorageState) : Op → StorageState
  | Op.create rerr token now o => (createClip hash s rerr token now o).2
  | Op.get rerr token pw now => (getClip hash s rerr token pw now).2
  | Op.info rerr token now => (getClipInfo s rerr token now).2
  | Op.del rerr token => (deleteClip s rerr token).2
  | Op.stats => getStatsState s
  | Op.sweep now => cleanupExpiredClips s now

/-- Whether an operation is a `createClip` writing the given token. -/
def opCreatesAt : Op → String → Bool
  | Op.create _ token _ _, t => decide (token = t)
  | _, _ => false

/-- State after `n` consecutive fault-free `getClip` calls with the same
token, password and time. -/
def iterState (hash : String → String) (s : StorageState) (t : String)
    (pw : Option String) (now : Nat) : Nat → StorageState
  | 0 => s
  | n + 1 => (getClip hash (iterState hash s t pw now n) false t pw now).2

/-- Result of the `(n+1)`-th such `getClip` call (counting from 0). -/
def nthReadResult (hash : String → String) (s : StorageState) (t : String)
    (pw : Option String) (now : Nat) (n : Nat) : Option Clip :=
  (getClip hash (iterState hash s t pw now n) false t pw now).1

/-- The store with both tiers empty and the Durable Tier connected. -/
def emptyState : StorageState :=
  { memoryClips := fun _ => none, redis := fun _ => none, redisConnected := true }

/-- A concrete digest function for concrete evaluations. -/
def idHash : String → String := fun p => p

/-! Concrete fixture states used to evaluate the verified statements on
explicit inputs. -/

/-- The store right after creating a plain clip at time 0. -/
def plainState : StorageState :=
  (createClip idHash emptyState false "t" 0 { content := "hi" }).2

/-- The clip that `plainState` holds under token `"t"`. -/
def plainClip : Clip :=
  mkClip idHash "t" 0 ({ content := "hi" } : CreateClipOptions)

/-- The store right after creating a password-protected clip at time 0. -/
def pwState : StorageState :=
  (createClip idHash emptyState false "t" 0
    { content := "secret", password := some "pw" }).2

/-- The clip that `pwState` holds under token `"t"`. -/
def pwClip : Clip :=
  mkClip idHash "t" 0
    ({ content := "secret", password := some "pw" } : CreateClipOptions)

/-- The store right after creating a burn-after-reading clip at time 0. -/
def burnState : StorageState :=
  (createClip idHash emptyState false "t" 0
    { content := "hot", burnAfterReading := some true }).2

/-- The clip that `burnState` holds under token `"t"`. -/
def burnClip : Clip :=
  mkClip idHash "t" 0
    ({ content := "hot", burnAfterReading := some true } : CreateClipOptions)

/-- The store right after creating a clip with `maxAccess = 1` at time 0. -/
def max1State : StorageState :=
  (createClip idHash emptyState false "t" 0
    { content := "x", maxAccess := some 1 }).2

/-- The clip that `max1State` holds under token `"t"`. -/
def max1Clip : Clip :=
  mkClip idHash "t" 0
    ({ content := "x", maxAccess := some 1 } : CreateClipOptions)

/-- The store after the single allowed read of the `maxAccess = 1` clip. -/
def max1ReadState : StorageState :=
  (getClip idHash max1State false "t" none 0).2

/-- The store right after creating a clip with both `burnAfterReading`
and `maxAccess = 2` at time 0. -/
def burnMax2State : StorageState :=
  (createClip idHash emptyState false "t" 0
    { content := "x", burnAfterReading := some true, maxAccess := some 2 }).2

/-! Basic simplification lemmas about the state-manipulation helpers. -/

@[simp] lemma setKey_same (m : String → Option Clip) (k : String)
    (v : Option Clip) : setKey m k v k = v := by
  simp [setKey]

lemma setKey_other {x k : String} (h : x ≠ k) (m : String → Option Clip)
    (v : Option Clip) : setKey m k v x = m x := by
  simp [setKey, h]

@[simp] lemma storeInRedis_memoryClips (s : StorageState) (rerr : Bool)
    (token : String) (clip : Clip) (ttl : Int) :
    (storeInRedis s rerr token clip ttl).memoryClips = s.memoryClips := by
  cases hc : s.redisConnected <;> cases hr : rerr <;>
    simp [storeInRedis, hc, hr]

@[simp] lemma storeInRedis_redisConnected (s : StorageState) (rerr : Bool)
    (token : String) (clip : Clip) (ttl : Int) :
    (storeInRedis s rerr token clip ttl).redisConnected = s.redisConnected := by
  cases hc : s.redisConnected <;> cases hr : rerr <;>
    simp [storeInRedis, hc, hr]

lemma storeInRedis_redis (s : StorageState) (rerr : Bool) (token : String)
    (clip : Clip) (ttl : Int) :
    (storeInRedis s rerr token clip ttl).redis =
      if s.redisConnected = true ∧ rerr = false then
        setKey s.redis token (some clip)
      else s.redis := by
  cases hc : s.redisConnected <;> cases hr : rerr <;>
    simp [storeInRedis, hc, hr]

@[simp] lemma deleteClip_snd_memoryClips (s : StorageState) (rerr : Bool)
    (token : String) :
    ((deleteClip s rerr token).2).memoryClips = setKey s.memoryClips token none := by
  cases hc : s.redisConnected <;> cases hr : rerr <;>
    simp [deleteClip, hc, hr]

lemma deleteClip_snd_redis (s : StorageState) (rerr : Bool) (token : String) :
    ((deleteClip s rerr token).2).redis =
      if s.redisConnected = true ∧ rerr = false then
        setKey s.redis token none
      else s.redis := by
  cases hc : s.redisConnected <;> cases hr : rerr <;>
    simp [deleteClip, hc, hr]

@[simp] lemma deleteClip_snd_redisConnected (s : StorageState) (rerr : Bool)
    (token : String) :
    ((deleteClip s rerr token).2).redisConnected = s.redisConnected := by
  cases hc : s.redisConnected <;> cases hr : rerr <;>
    simp [deleteClip, hc, hr]

lemma lookupClip_memHit {s : StorageState} {t : String} {c : Clip}
    (rerr : Bool) (hm : s.memoryClips t = some c) :
    lookupClip s rerr t = some c := by
  simp [lookupClip, hm]

/-! Branch characterizations of `getClip`, for a Fast Tier hit. -/

lemma getClip_memHit_expired (hash : String → String) {s : StorageState}
    {t : String} (rerr : Bool) (pw : Option String) (now : Nat) {c : Clip}
    (hm : s.memoryClips t = some c) (hx : isExpired c now = true) :
    getClip hash s rerr t pw now = (none, (deleteClip s rerr t).2) := by
  simp [getClip, lookupClip, hm, hx]

lemma getClip_memHit_pwRejects (hash : String → String) {s : StorageState}
    {t : String} (rerr : Bool) (pw : Option String) (now : Nat) {c : Clip}
    (hm : s.memoryClips t = some c) (hx : isExpired c now = false)
    (hp : passwordRejects hash c pw = true) :
    getClip hash s rerr t pw now = (none, s) := by
  simp [getClip, lookupClip, hm, hx, hp]

lemma getClip_memHit_maxRejects (hash : String → String) {s : StorageState}
    {t : String} (rerr : Bool) (pw : Option String) (now : Nat) {c : Clip}
    (hm : s.memoryClips t = some c) (hx : isExpired c now = false)
    (hp : passwordRejects hash c pw = false)
    (hmx : maxAccessRejects c = true) :
    getClip hash s rerr t pw now = (none, (deleteClip s rerr t).2) := by
  simp [getClip, lookupClip, hm, hx, hp, hmx]

lemma getClip_memHit_success_noburn (hash : String → String)
    {s : StorageState} {t : String} (rerr : Bool) (pw : Option String)
    (now : Nat) {c : Clip}
    (hm : s.memoryClips t = some c) (hx : isExpired c now = false)
    (hp : passwordRejects hash c pw = false)
    (hmx : maxAccessRejects c = false)
    (hb : c.burnAfterReading = false) :
    getClip hash s rerr t pw now =
      (some { c with accessCount := c.accessCount + 1 },
       storeInRedis
         { s with memoryClips :=
             setKey s.memoryClips t (some { c with accessCount := c.accessCount + 1 }) }
         rerr t { c with accessCount := c.accessCount + 1 }
         (((c.expiresAt : Int) - (now : Int)) / 1000)) := by
  simp [getClip, lookupClip, hm, hx, hp, hmx, hb]

lemma getClip_memHit_success_burn (hash : String → String)
    {s : StorageState} {t : String} (rerr : Bool) (pw : Option String)
    (now : Nat) {c : Clip}
    (hm : s.memoryClips t = some c) (hx : isExpired c now = false)
    (hp : passwordRejects hash c pw = false)
    (hmx : maxAccessRejects c = false)
    (hb : c.burnAfterReading = true) :
    getClip hash s rerr t pw now =
      (some { c with accessCount := c.accessCount + 1 },
       (deleteClip
         (storeInRedis
           { s with memoryClips :=
               setKey s.memoryClips t (some { c with accessCount := c.accessCount + 1 }) }
           rerr t { c with accessCount := c.accessCount + 1 }
           (((c.expiresAt : Int) - (now : Int)) / 1000))
         rerr t).2) := by
  simp [getClip, lookupClip, hm, hx, hp, hmx, hb]

/-! Branch characterizations of `getClip`, for a Fast Tier miss with a
Durable Tier hit (the restore path). -/

lemma getClip_restore_expired (hash : String → String) {s : StorageState}
    {t : String} {rerr : Bool} (pw : Option String) (now : Nat) {c : Clip}
    (hm : s.memoryClips t = none) (hl : lookupClip s rerr t = some c)
    (hx : isExpired c now = true) :
    getClip hash s rerr t pw now =
      (none,
       (deleteClip { s with memoryClips := setKey s.memoryClips t (some c) }
         rerr t).2) := by
  simp [getClip, hl, hm, hx]

lemma getClip_restore_pwRejects (hash : String → String) {s : StorageState}
    {t : String} {rerr : Bool} (pw : Option String) (now : Nat) {c : Clip}
    (hm : s.memoryClips t = none) (hl : lookupClip s rerr t = some c)
    (hx : isExpired c now = false)
    (hp : passwordRejects hash c pw = true) :
    getClip hash s rerr t pw now =
      (none, { s with memoryClips := setKey s.memoryClips t (some c) }) := by
  simp [getClip, hl, hm, hx, hp]

lemma getClip_restore_maxRejects (hash : String → String) {s : StorageState}
    {t : String} {rerr : Bool} (pw : Option String) (now : Nat) {c : Clip}
    (hm : s.memoryClips t = none) (hl : lookupClip s rerr t = some c)
    (hx : isExpired c now = false)
    (hp : passwordRejects hash c pw = false)
    (hmx : maxAccessRejects c = true) :
    getClip hash s rerr t pw now =
      (none,
       (deleteClip { s with memoryClips := setKey s.memoryClips t (some c) }
         rerr t).2) := by
  simp [getClip, hl, hm, hx, hp, hmx]

lemma getClip_restore_success (hash : String → String) {s : StorageState}
    {t : String} {rerr : Bool} (pw : Option String) (now : Nat) {c : Clip}
    (hm : s.memoryClips t = none) (hl : lookupClip s rerr t = some c)
    (hx : isExpired c now = false)
    (hp : passwordRejects hash c pw = false)
    (hmx : maxAccessRejects c = false) :
    (getClip hash s rerr t pw now).1 =
      some { c with accessCount := c.accessCount + 1 } := by
  cases hb : c.burnAfterReading <;> simp [getClip, hl, hm, hx, hp, hmx, hb]

/-! Frame lemmas: operations on one token do not touch other keys, and
no operation changes the `redisConnected` flag. -/

lemma getClip_frame (hash : String → String) (s : StorageState) (rerr : Bool)
    (tok : String) (pw : Option String) (now : Nat) {t : String}
    (hne : t ≠ tok) :
    ((getClip hash s rerr tok pw now).2).memoryClips t = s.memoryClips t ∧
    ((getClip hash s rerr tok pw now).2).redis t = s.redis t := by
  rcases hl : lookupClip s rerr tok with _ | c
  · simp [getClip, hl]
  · rcases hm : s.memoryClips tok with _ | c0 <;>
      simp only [getClip, hl, hm] <;>
      (repeat' split) <;>
      simp [deleteClip_snd_redis, storeInRedis_redis, ite_apply,
        setKey_other hne]

lemma getClip_snd_redisConnected (hash : String → String) (s : StorageState)
    (rerr : Bool) (tok : String) (pw : Option String) (now : Nat) :
    ((getClip hash s rerr tok pw now).2).redisConnected = s.redisConnected := by
  rcases hl : lookupClip s rerr tok with _ | c
  · simp [getClip, hl]
  · rcases hm : s.memoryClips tok with _ | c0 <;>
      simp only [getClip, hl, hm] <;>
      (repeat' split) <;>
      simp

lemma createClip_frame (hash : String → String) (s : StorageState)
    (rerr : Bool) (tok : String) (now : Nat) (o : CreateClipOptions)
    {t : String} (hne : t ≠ tok) :
    ((createClip hash s rerr tok now o).2).memoryClips t = s.memoryClips t ∧
    ((createClip hash s rerr tok now o).2).redis t = s.redis t := by
  simp [createClip, storeInRedis_redis, ite_apply, setKey_other hne]

lemma deleteClip_frame (s : StorageState) (rerr : Bool) (tok : String)
    {t : String} (hne : t ≠ tok) :
    ((deleteClip s rerr tok).2).memoryClips t = s.memoryClips t ∧
    ((deleteClip s rerr tok).2).redis t = s.redis t := by
  simp [deleteClip_snd_redis, ite_apply, setKey_other hne]

/-! Policy facts about a freshly created clip. -/

lemma mkClip_not_expired (hash : String → String) (token : String)
    (now : Nat) (o : CreateClipOptions) :
    isExpired (mkClip hash token now o) now = false := by
  simp only [isExpired, mkClip, decide_eq_false_iff_not, not_lt]
  exact Nat.le_add_right _ _

lemma mkClip_password_passes (hash : String → String) (token : String)
    (now : Nat) (o : CreateClipOptions) :
    passwordRejects hash (mkClip hash token now o) o.password = false := by
  rcases ho : o.password with _ | p
  · simp [passwordRejects, mkClip, storedPasswordHash, ho]
  · by_cases hp : p = ""
    · simp [passwordRejects, mkClip, storedPasswordHash, ho, hp]
    · simp [passwordRejects, mkClip, storedPasswordHash, ho, hp, verifyPassword]

lemma mkClip_maxAccess_passes (hash : String → String) (token : String)
    (now : Nat) (o : CreateClipOptions) :
    maxAccessRejects (mkClip hash token now o) = false := by
  rcases hk : o.maxAccess with _ | k
  · simp [maxAccessRejects, mkClip, hk]
  · rcases k with _ | k <;> simp [maxAccessRejects, mkClip, hk]

lemma createClip_memory_at_token (hash : String → String) (s : StorageState)
    (rerr : Bool) (token : String) (now : Nat) (o : CreateClipOptions) :
    ((createClip hash s rerr token now o).2).memoryClips token =
      some (mkClip hash token now o) := by
  simp [createClip]

/-- Result of any policy-passing `getClip` hitting the Fast Tier: the
clip is returned with its access count incremented, whatever the burn
flag. -/
lemma getClip_memHit_success_fst (hash : String → String)
    {s : StorageState} {t : String} (rerr : Bool) (pw : Option String)
    (now : Nat) {c : Clip}
    (hm : s.memoryClips t = some c) (hx : isExpired c now = false)
    (hp : passwordRejects hash c pw = false)
    (hmx : maxAccessRejects c = false) :
    (getClip hash s rerr t pw now).1 =
      some { c with accessCount := c.accessCount + 1 } := by
  cases hb : c.burnAfterReading
  · rw [getClip_memHit_success_noburn hash rerr pw now hm hx hp hmx hb]
    simp [hb]
  · rw [getClip_memHit_success_burn hash rerr pw now hm hx hp hmx hb]
    simp [hb]

/-- Claim C1.  For every create input (any content, optional password,
burn-after-reading flag, max-access limit and expiration), `createClip`
immediately followed by `getClip` on the returned token, supplying the
same password option that was given at creation, returns a clip whose
content is the input content and whose `accessCount` is 1.  This holds
for every starting state, every digest function and even under Durable
Tier faults during either call. -/
theorem c1_create_then_read_roundtrip (hash : String → String)
    (s : StorageState) (rerr rerr2 : Bool) (token : String) (now : Nat)
    (o : CreateClipOptions) :
    ∃ c : Clip,
      (getClip hash ((createClip hash s rerr token now o).2) rerr2
        ((createClip hash s rerr token now o).1.1) o.password now).1 = some c ∧
      c.content = o.content ∧
      c.accessCount = 1 := by
  have htok : (createClip hash s rerr token now o).1.1 = token := rfl
  rw [htok]
  refine ⟨{ mkClip hash token now o with accessCount := 1 }, ?_, ?_, rfl⟩
  · exact getClip_memHit_success_fst hash rerr2 o.password now
      (createClip_memory_at_token hash s rerr token now o)
      (mkClip_not_expired hash token now o)
      (mkClip_password_passes hash token now o)
      (mkClip_maxAccess_passes hash token now o)
  · simp [mkClip]

/-- Claim C8.  `createClip` in a run where every Durable Tier interaction
throws (the thrown errors are caught and swallowed inside
`storeInRedis`): it still returns the token and the computed expiry, the
clip is present in the Fast Tier afterwards, and the Durable Tier state
is untouched — the failure neither propagates nor undoes the Fast Tier
write.  Holds for every starting state and every input. -/
theorem c8_create_swallows_durable_tier_failure (hash : String → String)
    (s : StorageState) (token : String) (now : Nat) (o : CreateClipOptions) :
    (createClip hash s true token now o).1 =
      (token, now + effectiveExpirationMinutes o * 60 * 1000) ∧
    ((createClip hash s true token now o).2).memoryClips token =
      some (mkClip hash token now o) ∧
    ((createClip hash s true token now o).2).redis = s.redis ∧
    ((createClip hash s true token now o).2).redisConnected = s.redisConnected := by
  refine ⟨rfl, createClip_memory_at_token hash s true token now o, ?_, ?_⟩
  · simp [createClip, storeInRedis_redis]
  · simp [createClip]

lemma getClipInfo_snd_eq (s : StorageState) (rerr : Bool) (t : String)
    (now : Nat) : (getClipInfo s rerr t now).2 = s := by
  rcases hl : lookupClip s rerr t with _ | c
  · simp [getClipInfo, hl]
  · simp only [getClipInfo, hl]
    split <;> rfl

/-- Claim C10.  `getClipInfo` (peek) never changes the store state: it does
not restore a Durable Tier hit into the Fast Tier and it does not delete
an expired clip from either tier — for every state, token, time, and
even under Durable Tier faults, the post-state equals the pre-state. -/
theorem c10_peek_leaves_state_unchanged (s : StorageState) (rerr : Bool)
    (t : String) (now : Nat) :
    (getClipInfo s rerr t now).2 = s :=
  getClipInfo_snd_eq s rerr t now

/-! Result characterization of `getClip` shared by the expiry and
password properties. -/

lemma getClip_lookup_none (hash : String → String) {s : StorageState}
    {rerr : Bool} {t : String} (pw : Option String) (now : Nat)
    (hl : lookupClip s rerr t = none) :
    getClip hash s rerr t pw now = (none, s) := by
  simp [getClip, hl]

lemma lookupClip_mem_inj {s : StorageState} {rerr : Bool} {t : String}
    {c c0 : Clip} (hm : s.memoryClips t = some c)
    (hl : lookupClip s rerr t = some c0) : c = c0 := by
  have h := (lookupClip_memHit rerr hm).symm.trans hl
  exact Option.some.inj h

/-- Every `getClip` on a found clip either answers not-found, or passes
all three policy checks and answers the incremented clip. -/
lemma getClip_fst_characterization (hash : String → String)
    {s : StorageState} {rerr : Bool} {t : String} (pw : Option String)
    (now : Nat) {c0 : Clip} (hl : lookupClip s rerr t = some c0) :
    (getClip hash s rerr t pw now).1 = none ∨
    ((getClip hash s rerr t pw now).1 =
        some { c0 with accessCount := c0.accessCount + 1 } ∧
      isExpired c0 now = false ∧ passwordRejects hash c0 pw = false ∧
      maxAccessRejects c0 = false) := by
  rcases hm : s.memoryClips t with _ | c1
  · by_cases hx : isExpired c0 now = true
    · left
      rw [getClip_restore_expired hash pw now hm hl hx]
    · rw [Bool.not_eq_true] at hx
      by_cases hp : passwordRejects hash c0 pw = true
      · left
        rw [getClip_restore_pwRejects hash pw now hm hl hx hp]
      · rw [Bool.not_eq_true] at hp
        by_cases hmx : maxAccessRejects c0 = true
        · left
          rw [getClip_restore_maxRejects hash pw now hm hl hx hp hmx]
        · rw [Bool.not_eq_true] at hmx
          right
          exact ⟨getClip_restore_success hash pw now hm hl hx hp hmx, hx, hp, hmx⟩
  · obtain rfl := lookupClip_mem_inj hm hl
    by_cases hx : isExpired c1 now = true
    · left
      rw [getClip_memHit_expired hash rerr pw now hm hx]
    · rw [Bool.not_eq_true] at hx
      by_cases hp : passwordRejects hash c1 pw = true
      · left
        rw [getClip_memHit_pwRejects hash rerr pw now hm hx hp]
      · rw [Bool.not_eq_true] at hp
        by_cases hmx : maxAccessRejects c1 = true
        · left
          rw [getClip_memHit_maxRejects hash rerr pw now hm hx hp hmx]
        · rw [Bool.not_eq_true] at hmx
          right
          exact ⟨getClip_memHit_success_fst hash rerr pw now hm hx hp hmx,
            hx, hp, hmx⟩

/-- Claim C2.  Expired clips are treated as nonexistent.  First part: whenever
the lookup (Fast Tier first, Durable Tier fallback) finds a clip whose
`expiresAt` has passed, a fault-free `getClip` answers not-found,
removes the clip from the Fast Tier and (while connected) from the
Durable Tier, and `getClipInfo` answers not-found as well.  Second part:
no `getClip` ever returns a clip whose `expiresAt` has passed, whichever
tier it was found in. -/
theorem c2_expired_clips_never_served :
    (∀ (hash : String → String) (s : StorageState) (t : String)
        (pw : Option String) (now : Nat) (c : Clip),
        lookupClip s false t = some c → c.expiresAt < now →
        (getClip hash s false t pw now).1 = none ∧
        ((getClip hash s false t pw now).2).memoryClips t = none ∧
        (s.redisConnected = true →
          ((getClip hash s false t pw now).2).redis t = none) ∧
        (getClipInfo s false t now).1 = none) ∧
    (∀ (hash : String → String) (s : StorageState) (rerr : Bool)
        (t : String) (pw : Option String) (now : Nat) (c : Clip),
        (getClip hash s rerr t pw now).1 = some c → ¬ c.expiresAt < now) := by
  constructor
  · intro hash s t pw now c hl hexp
    have hx : isExpired c now = true := by simp [isExpired, hexp]
    have hinfo : (getClipInfo s false t now).1 = none := by
      simp [getClipInfo, hl, hx]
    rcases hm : s.memoryClips t with _ | c1
    · rw [getClip_restore_expired hash pw now hm hl hx]
      refine ⟨rfl, by simp, ?_, hinfo⟩
      intro hconn
      simp [deleteClip_snd_redis, hconn]
    · obtain rfl := lookupClip_mem_inj hm hl
      rw [getClip_memHit_expired hash false pw now hm hx]
      refine ⟨rfl, by simp, ?_, hinfo⟩
      intro hconn
      simp [deleteClip_snd_redis, hconn]
  · intro hash s rerr t pw now c h
    rcases hl : lookupClip s rerr t with _ | c0
    · rw [getClip_lookup_none hash pw now hl] at h
      simp at h
    · rcases getClip_fst_characterization hash pw now hl with hnone | ⟨hsome, hx, _, _⟩
      · rw [hnone] at h
        simp at h
      · rw [hsome] at h
        obtain rfl := Option.some.inj h
        simp only [isExpired, decide_eq_false_iff_not] at hx
        simpa using hx

/-- Witness for C2 at a concrete input: the plain fixture clip expires
at time 3600000 and is read at time 3600001. -/
theorem c2_expired_clips_never_served_witness :
    lookupClip plainState false "t" = some plainClip ∧
    plainClip.expiresAt < 3600001 ∧
    ((getClip idHash plainState false "t" none 3600001).1 = none ∧
     ((getClip idHash plainState false "t" none 3600001).2).memoryClips "t" = none ∧
     (plainState.redisConnected = true →
       ((getClip idHash plainState false "t" none 3600001).2).redis "t" = none) ∧
     (getClipInfo plainState false "t" 3600001).1 = none) :=
  ⟨by decide, by decide,
   c2_expired_clips_never_served.1 idHash plainState "t" none 3600001 plainClip
     (by decide) (by decide)⟩

lemma passwordRejects_of_wrong (hash : String → String) {c : Clip}
    {stored : String} {pw : Option String}
    (hpw : c.password = some stored)
    (hrej : pw = none ∨ ∃ p, pw = some p ∧ hash p ≠ stored) :
    passwordRejects hash c pw = true := by
  rcases hrej with rfl | ⟨p, rfl, hne⟩
  · simp [passwordRejects, hpw]
  · by_cases hp : p = ""
    · simp [passwordRejects, hpw, hp]
    · simp [passwordRejects, hpw, hp, verifyPassword, hne]

/-- Claim C6.  On a password-protected clip that has not expired, `getClip`
with no supplied password, or with a password whose digest differs from
the stored digest, answers not-found — exactly the answer for a
nonexistent token — while `getClipInfo` on the same store ignores the
password entirely and returns the clip's metadata. -/
theorem c6_wrong_password_not_found_but_peek_works (hash : String → String)
    (s : StorageState) (t : String) (pw : Option String) (now : Nat)
    (c : Clip) (stored : String)
    (hl : lookupClip s false t = some c)
    (hpw : c.password = some stored)
    (hx : ¬ c.expiresAt < now)
    (hrej : pw = none ∨ ∃ p, pw = some p ∧ hash p ≠ stored) :
    (getClip hash s false t pw now).1 = none ∧
    (getClipInfo s false t now).1 =
      some { createdAt := c.createdAt, expiresAt := c.expiresAt,
             accessCount := c.accessCount, contentType := c.contentType } := by
  have hxf : isExpired c now = false := by simp [isExpired, hx]
  have hp := passwordRejects_of_wrong hash hpw hrej
  constructor
  · rcases hm : s.memoryClips t with _ | c1
    · rw [getClip_restore_pwRejects hash pw now hm hl hxf hp]
    · obtain rfl := lookupClip_mem_inj hm hl
      rw [getClip_memHit_pwRejects hash false pw now hm hxf hp]
  · simp [getClipInfo, hl, hxf]

/-- Witness for C6 at a concrete input: wrong password "x" against the
stored digest of "pw". -/
theorem c6_wrong_password_witness :
    lookupClip pwState false "t" = some pwClip ∧
    pwClip.password = some "pw" ∧
    ¬ pwClip.expiresAt < 0 ∧
    ((getClip idHash pwState false "t" (some "x") 0).1 = none ∧
     (getClipInfo pwState false "t" 0).1 =
       some { createdAt := pwClip.createdAt, expiresAt := pwClip.expiresAt,
              accessCount := pwClip.accessCount,
              contentType := pwClip.contentType }) :=
  ⟨by decide, by decide, by decide,
   c6_wrong_password_not_found_but_peek_works idHash pwState "t" (some "x") 0
     pwClip "pw" (by decide) (by decide) (by decide)
     (Or.inr ⟨"x", rfl, by decide⟩)⟩

/-- Claim C9.  While the Durable Tier is connected and fault-free,
`deleteClip` (which takes no password at all) returns true exactly when
the token was present in the Fast Tier or in the Durable Tier, removes
it from both, and a second `deleteClip` on the same token returns
false. -/
lemma deleteClip_fst_false (s : StorageState) (t : String) :
    (deleteClip s false t).1 =
      ((s.memoryClips t).isSome || (s.redisConnected && (s.redis t).isSome)) := by
  cases hc : s.redisConnected <;> simp [deleteClip, hc]

theorem c9_delete_idempotent (s : StorageState) (t : String)
    (h : s.redisConnected = true) :
    ((deleteClip s false t).1 = true ↔
      (s.memoryClips t).isSome = true ∨ (s.redis t).isSome = true) ∧
    ((deleteClip s false t).2).memoryClips t = none ∧
    ((deleteClip s false t).2).redis t = none ∧
    (deleteClip ((deleteClip s false t).2) false t).1 = false := by
  have h1 : ((deleteClip s false t).2).memoryClips t = none := by simp
  have h2 : ((deleteClip s false t).2).redis t = none := by
    simp [deleteClip_snd_redis, h]
  have h3 : ((deleteClip s false t).2).redisConnected = true := by simp [h]
  refine ⟨?_, h1, h2, ?_⟩
  · rw [deleteClip_fst_false]
    simp [h]
  · rw [deleteClip_fst_false]
    simp [h1, h2, h3]

/-- Witness for C9 at a concrete input: delete the plain fixture clip
twice. -/
theorem c9_delete_idempotent_witness :
    plainState.redisConnected = true ∧
    (((deleteClip plainState false "t").1 = true ↔
       (plainState.memoryClips "t").isSome = true ∨
       (plainState.redis "t").isSome = true) ∧
     ((deleteClip plainState false "t").2).memoryClips "t" = none ∧
     ((deleteClip plainState false "t").2).redis "t" = none ∧
     (deleteClip ((deleteClip plainState false "t").2) false "t").1 = false) :=
  ⟨rfl, c9_delete_idempotent plainState "t" rfl⟩

lemma maxAccessRejects_of_zero {c : Clip} (h0 : c.accessCount = 0) :
    maxAccessRejects c = false := by
  rcases hk : c.maxAccess with _ | k
  · simp [maxAccessRejects, hk]
  · rcases k with _ | k <;> simp [maxAccessRejects, hk, h0]

/-- Claim C3.  A burn-after-reading clip (still unread, as created) whose
policy checks pass: the fault-free `getClip` returns the clip content
with `accessCount` 1 (the state before the burn deletion), the same call
removes the clip from the Fast Tier and (while connected) from the
Durable Tier, and every getClip issued on the resulting store for that
token answers not-found, whatever password, time, or fault flag. -/
theorem c3_burn_after_reading_single_read (hash : String → String)
    (s : StorageState) (t : String) (pw : Option String) (now : Nat)
    (c : Clip)
    (hm : s.memoryClips t = some c)
    (hb : c.burnAfterReading = true)
    (h0 : c.accessCount = 0)
    (hx : ¬ c.expiresAt < now)
    (hp : passwordRejects hash c pw = false) :
    ∃ c2 : Clip,
      (getClip hash s false t pw now).1 = some c2 ∧
      c2.content = c.content ∧
      c2.accessCount = 1 ∧
      ((getClip hash s false t pw now).2).memoryClips t = none ∧
      (s.redisConnected = true →
        ((getClip hash s false t pw now).2).redis t = none) ∧
      (∀ (rerr2 : Bool) (pw2 : Option String) (now2 : Nat),
        (getClip hash ((getClip hash s false t pw now).2) rerr2 t pw2 now2).1 =
          none) := by
  have hxf : isExpired c now = false := by simp [isExpired, hx]
  have hmx : maxAccessRejects c = false := maxAccessRejects_of_zero h0
  rw [getClip_memHit_success_burn hash false pw now hm hxf hp hmx hb]
  have hmem : ∀ s3 : StorageState,
      ((deleteClip s3 false t).2).memoryClips t = none := by
    intro s3
    simp
  refine ⟨{ c with accessCount := c.accessCount + 1 }, rfl, rfl, by simp [h0],
    hmem _, ?_, ?_⟩
  · intro hconn
    simp [deleteClip_snd_redis, hconn]
  · intro rerr2 pw2 now2
    have hlook : lookupClip
        ((deleteClip (storeInRedis
          { s with memoryClips :=
              setKey s.memoryClips t (some { c with accessCount := c.accessCount + 1 }) }
          false t { c with accessCount := c.accessCount + 1 }
          (((c.expiresAt : Int) - (now : Int)) / 1000)) false t).2) rerr2 t =
        none := by
      cases hc2 : s.redisConnected
      · simp [lookupClip, getFromRedis, hc2]
      · cases rerr2 <;>
          simp [lookupClip, getFromRedis, hc2, deleteClip_snd_redis]
    rw [getClip_lookup_none hash pw2 now2 hlook]

/-- Witness for C3 at a concrete input: the burn fixture clip read once
at time 0. -/
theorem c3_burn_after_reading_witness :
    burnState.memoryClips "t" = some burnClip ∧
    burnClip.burnAfterReading = true ∧
    burnClip.accessCount = 0 ∧
    ¬ burnClip.expiresAt < 0 ∧
    passwordRejects idHash burnClip none = false ∧
    (∃ c2 : Clip,
      (getClip idHash burnState false "t" none 0).1 = some c2 ∧
      c2.content = burnClip.content ∧
      c2.accessCount = 1 ∧
      ((getClip idHash burnState false "t" none 0).2).memoryClips "t" = none ∧
      (burnState.redisConnected = true →
        ((getClip idHash burnState false "t" none 0).2).redis "t" = none) ∧
      (∀ (rerr2 : Bool) (pw2 : Option String) (now2 : Nat),
        (getClip idHash ((getClip idHash burnState false "t" none 0).2) rerr2
          "t" pw2 now2).1 = none)) :=
  ⟨by decide, by decide, by decide, by decide, by decide,
   c3_burn_after_reading_single_read idHash burnState "t" none 0 burnClip
     (by decide) (by decide) (by decide) (by decide) (by decide)⟩

/-- Counterexample to C5 as stated: for the fixture clip with
`maxAccess = 1`, the read that makes `accessCount` reach `maxAccess`
succeeds, yet immediately after that call the clip is still present in
both tiers — it is not "deleted from the store" at that moment. -/
theorem c5_counterexample_still_present_after_limit_reached :
    max1Clip.maxAccess = some 1 ∧
    (getClip idHash max1State false "t" none 0).1 =
      some { max1Clip with accessCount := 1 } ∧
    ((getClip idHash max1State false "t" none 0).2).memoryClips "t" =
      some { max1Clip with accessCount := 1 } ∧
    ((getClip idHash max1State false "t" none 0).2).redis "t" =
      some { max1Clip with accessCount := 1 } := by
  decide

/-- Claim C5 as amended: once `accessCount` has reached `maxAccess` (k ≥ 1),
the clip is unreadable — the next fault-free `getClip` whose password
check passes on the unexpired clip answers not-found — and it is during
that subsequent call (not at the moment the k-th read completes) that
the clip is deleted from the Fast Tier and (while connected) the Durable
Tier. -/
theorem c5_max_access_exhaustion_lazy_delete (hash : String → String)
    (s : StorageState) (t : String) (pw : Option String) (now : Nat)
    (c : Clip) (k : Nat)
    (hm : s.memoryClips t = some c)
    (hk : c.maxAccess = some k)
    (hk1 : 1 ≤ k)
    (hreach : k ≤ c.accessCount)
    (hx : ¬ c.expiresAt < now)
    (hp : passwordRejects hash c pw = false) :
    (getClip hash s false t pw now).1 = none ∧
    ((getClip hash s false t pw now).2).memoryClips t = none ∧
    (s.redisConnected = true →
      ((getClip hash s false t pw now).2).redis t = none) := by
  have hxf : isExpired c now = false := by simp [isExpired, hx]
  have hmx : maxAccessRejects c = true := by
    rcases k with _ | k
    · omega
    · simp only [maxAccessRejects, hk, decide_eq_true_eq]
      exact hreach
  rw [getClip_memHit_maxRejects hash false pw now hm hxf hp hmx]
  refine ⟨rfl, by simp, ?_⟩
  intro hconn
  simp [deleteClip_snd_redis, hconn]

/-- Witness for the amended C5 at a concrete input: the `maxAccess = 1`
fixture clip after its single allowed read. -/
theorem c5_max_access_exhaustion_witness :
    max1ReadState.memoryClips "t" = some { max1Clip with accessCount := 1 } ∧
    ({ max1Clip with accessCount := 1 } : Clip).maxAccess = some 1 ∧
    1 ≤ ({ max1Clip with accessCount := 1 } : Clip).accessCount ∧
    ¬ ({ max1Clip with accessCount := 1 } : Clip).expiresAt < 0 ∧
    ((getClip idHash max1ReadState false "t" none 0).1 = none ∧
     ((getClip idHash max1ReadState false "t" none 0).2).memoryClips "t" = none ∧
     (max1ReadState.redisConnected = true →
       ((getClip idHash max1ReadState false "t" none 0).2).redis "t" = none)) :=
  ⟨by decide, by decide, by decide, by decide,
   c5_max_access_exhaustion_lazy_delete idHash max1ReadState "t" none 0
     { max1Clip with accessCount := 1 } 1 (by decide) (by decide) (by decide)
     (by decide) (by decide) (by decide)⟩

lemma maxAccessRejects_lt {c : Clip} {k : Nat} (hk : c.maxAccess = some k)
    (h : c.accessCount < k) : maxAccessRejects c = false := by
  rcases k with _ | k
  · exact absurd h (Nat.not_lt_zero _)
  · simp only [maxAccessRejects, hk, decide_eq_false_iff_not]
    omega

lemma maxAccessRejects_reached {c : Clip} {k : Nat} (hk : c.maxAccess = some k)
    (hk1 : 1 ≤ k) (h : k ≤ c.accessCount) : maxAccessRejects c = true := by
  rcases k with _ | k
  · omega
  · simp only [maxAccessRejects, hk, decide_eq_true_eq]
    exact h

/-- Running `i ≤ k` fault-free reads against an unread clip with
`maxAccess = k` and no burn flag keeps it in the Fast Tier with
`accessCount = i`. -/
lemma maxAccess_run (hash : String → String) (s : StorageState) (t : String)
    (pw : Option String) (now : Nat) (c : Clip) (k : Nat)
    (hm : s.memoryClips t = some c)
    (hconn : s.redisConnected = true)
    (h0 : c.accessCount = 0)
    (hk : c.maxAccess = some k)
    (hx : isExpired c now = false)
    (hp : passwordRejects hash c pw = false)
    (hb : c.burnAfterReading = false) :
    ∀ i, i ≤ k →
      (iterState hash s t pw now i).memoryClips t =
        some { c with accessCount := i } ∧
      (iterState hash s t pw now i).redisConnected = true := by
  intro i
  induction i with
  | zero =>
    intro _
    have hc0 : ({ c with accessCount := 0 } : Clip) = c := by
      rw [← h0]
    constructor
    · rw [hc0]
      exact hm
    · exact hconn
  | succ i ih =>
    intro hik
    obtain ⟨hmem, hcon⟩ := ih (Nat.le_of_succ_le hik)
    have hmx : maxAccessRejects { c with accessCount := i } = false :=
      maxAccessRejects_lt hk hik
    have hstep :=
      getClip_memHit_success_noburn hash false pw now hmem hx hp hmx hb
    constructor
    · show (getClip hash (iterState hash s t pw now i) false t pw
          now).2.memoryClips t = _
      rw [hstep]
      simp
    · show (getClip hash (iterState hash s t pw now i) false t pw
          now).2.redisConnected = true
      rw [hstep]
      simp [hcon]

/-- Claim C4 as amended (`burnAfterReading = false` added).  Creating a clip
with `maxAccess = k ≥ 1` and no burn flag on a connected store, then
repeatedly reading it with the creation password in the same instant:
the first `k` reads succeed with `accessCount` running through `1..k`,
the `(k+1)`-th read answers not-found, and after that call the token is
absent from both tiers. -/
theorem c4_max_access_answers_exactly_k_reads (hash : String → String)
    (s : StorageState) (t : String) (now : Nat) (o : CreateClipOptions)
    (k : Nat)
    (hk : o.maxAccess = some k)
    (hk1 : 1 ≤ k)
    (hb : o.burnAfterReading.getD false = false)
    (hconn : s.redisConnected = true) :
    (∀ i, i < k →
      nthReadResult hash ((createClip hash s false t now o).2) t o.password
          now i =
        some { mkClip hash t now o with accessCount := i + 1 }) ∧
    nthReadResult hash ((createClip hash s false t now o).2) t o.password
        now k = none ∧
    (iterState hash ((createClip hash s false t now o).2) t o.password now
        (k + 1)).memoryClips t = none ∧
    (iterState hash ((createClip hash s false t now o).2) t o.password now
        (k + 1)).redis t = none := by
  have f1 := createClip_memory_at_token hash s false t now o
  have f2 : ((createClip hash s false t now o).2).redisConnected = true := by
    simp [createClip, hconn]
  have hrun := maxAccess_run hash ((createClip hash s false t now o).2) t
    o.password now (mkClip hash t now o) k f1 f2 rfl hk
    (mkClip_not_expired hash t now o) (mkClip_password_passes hash t now o) hb
  obtain ⟨hmk, hck⟩ := hrun k le_rfl
  have hmxk : maxAccessRejects
      { mkClip hash t now o with accessCount := k } = true :=
    maxAccessRejects_reached hk hk1 le_rfl
  have hrejk := getClip_memHit_maxRejects hash false o.password now hmk
    (mkClip_not_expired hash t now o) (mkClip_password_passes hash t now o)
    hmxk
  refine ⟨?_, ?_, ?_, ?_⟩
  · intro i hik
    obtain ⟨hmi, _⟩ := hrun i (Nat.le_of_lt hik)
    have hmxi : maxAccessRejects
        { mkClip hash t now o with accessCount := i } = false :=
      maxAccessRejects_lt hk hik
    show (getClip hash (iterState hash ((createClip hash s false t now o).2)
        t o.password now i) false t o.password now).1 = _
    rw [getClip_memHit_success_fst hash false o.password now hmi
      (mkClip_not_expired hash t now o) (mkClip_password_passes hash t now o)
      hmxi]
  · show (getClip hash (iterState hash ((createClip hash s false t now o).2)
        t o.password now k) false t o.password now).1 = none
    rw [hrejk]
  · show (getClip hash (iterState hash ((createClip hash s false t now o).2)
        t o.password now k) false t o.password now).2.memoryClips t = none
    rw [hrejk]
    simp
  · show (getClip hash (iterState hash ((createClip hash s false t now o).2)
        t o.password now k) false t o.password now).2.redis t = none
    rw [hrejk]
    simp [deleteClip_snd_redis, hck]

/-- Counterexample to C4 as stated: a clip created with `maxAccess = 2`
and `burnAfterReading = true` answers only one successful read — the
second read returns not-found instead of the claimed second success with
`accessCount = 2`. -/
theorem c4_counterexample_burn_defeats_max_access :
    (mkClip idHash "t" 0
      ({ content := "x", burnAfterReading := some true, maxAccess := some 2 } :
        CreateClipOptions)).maxAccess = some 2 ∧
    nthReadResult idHash burnMax2State "t" none 0 0 =
      some { mkClip idHash "t" 0
        ({ content := "x", burnAfterReading := some true,
           maxAccess := some 2 } : CreateClipOptions) with accessCount := 1 } ∧
    nthReadResult idHash burnMax2State "t" none 0 1 = none := by
  decide

/-- Witness for the amended C4 at a concrete input: `maxAccess = 1`. -/
theorem c4_max_access_witness :
    ({ content := "x", maxAccess := some 1 } : CreateClipOptions).maxAccess =
      some 1 ∧
    ((∀ i, i < 1 →
        nthReadResult idHash max1State "t" none 0 i =
          some { max1Clip with accessCount := i + 1 }) ∧
      nthReadResult idHash max1State "t" none 0 1 = none ∧
      (iterState idHash max1State "t" none 0 2).memoryClips "t" = none ∧
      (iterState idHash max1State "t" none 0 2).redis "t" = none) :=
  ⟨rfl, c4_max_access_answers_exactly_k_reads idHash emptyState "t" 0
    { content := "x", maxAccess := some 1 } 1 rfl (by decide) rfl rfl⟩

/-- Claim C7.  One store operation that is not a `createClip` of this token:
if the token's Fast Tier clip is present before and after the operation,
its `accessCount` either stays exactly the same or grows by exactly 1,
and the increment happens only when the operation is a `getClip` of this
token that passes the expiry, password and max-access checks.  In
particular failed reads (expired, wrong password, limit exhausted),
`getClipInfo`, `deleteClip`, `getStats` and the expiry sweeper never
change a surviving clip's `accessCount`, and no operation ever lowers
it; over any operation sequence this gives monotonicity step by step. -/
theorem c7_access_count_increments_only_on_passing_read
    (hash : String → String) (s : StorageState) (op : Op) (t : String)
    (c c' : Clip)
    (hnc : opCreatesAt op t = false)
    (hm : s.memoryClips t = some c)
    (hm' : (step hash s op).memoryClips t = some c') :
    c' = c ∨
    (c'.accessCount = c.accessCount + 1 ∧
      ∃ rerr pw now, op = Op.get rerr t pw now ∧
        isExpired c now = false ∧ passwordRejects hash c pw = false ∧
        maxAccessRejects c = false) := by
  cases op with
  | create rerr tok now o =>
    simp only [opCreatesAt, decide_eq_false_iff_not] at hnc
    simp only [step] at hm'
    rw [(createClip_frame hash s rerr tok now o (Ne.symm hnc)).1] at hm'
    exact Or.inl (Option.some.inj (hm'.symm.trans hm))
  | get rerr tok pw now =>
    simp only [step] at hm'
    by_cases htok : tok = t
    · subst htok
      by_cases hx : isExpired c now = true
      · rw [getClip_memHit_expired hash rerr pw now hm hx] at hm'
        simp at hm'
      · rw [Bool.not_eq_true] at hx
        by_cases hp : passwordRejects hash c pw = true
        · rw [getClip_memHit_pwRejects hash rerr pw now hm hx hp] at hm'
          exact Or.inl (Option.some.inj (hm'.symm.trans hm))
        · rw [Bool.not_eq_true] at hp
          by_cases hmx : maxAccessRejects c = true
          · rw [getClip_memHit_maxRejects hash rerr pw now hm hx hp hmx] at hm'
            simp at hm'
          · rw [Bool.not_eq_true] at hmx
            cases hb : c.burnAfterReading
            · rw [getClip_memHit_success_noburn hash rerr pw now hm hx hp
                hmx hb] at hm'
              simp only [storeInRedis_memoryClips, setKey_same,
                Option.some.injEq] at hm'
              subst hm'
              exact Or.inr ⟨rfl, rerr, pw, now, rfl, hx, hp, hmx⟩
            · rw [getClip_memHit_success_burn hash rerr pw now hm hx hp
                hmx hb] at hm'
              simp at hm'
    · rw [(getClip_frame hash s rerr tok pw now (Ne.symm htok)).1] at hm'
      exact Or.inl (Option.some.inj (hm'.symm.trans hm))
  | info rerr tok now =>
    simp only [step] at hm'
    rw [getClipInfo_snd_eq] at hm'
    exact Or.inl (Option.some.inj (hm'.symm.trans hm))
  | del rerr tok =>
    simp only [step] at hm'
    by_cases htok : tok = t
    · subst htok
      simp at hm'
    · rw [(deleteClip_frame s rerr tok (Ne.symm htok)).1] at hm'
      exact Or.inl (Option.some.inj (hm'.symm.trans hm))
  | stats =>
    simp only [step, getStatsState] at hm'
    exact Or.inl (Option.some.inj (hm'.symm.trans hm))
  | sweep now =>
    simp only [step, cleanupExpiredClips, hm] at hm'
    by_cases hx : isExpired c now = true
    · simp [hx] at hm'
    · rw [Bool.not_eq_true] at hx
      simp only [hx, Bool.false_eq_true, if_false, Option.some.injEq] at hm'
      exact Or.inl hm'.symm

/-- Witness for C7 at a concrete input: a passing read of the plain
fixture clip takes its `accessCount` from 0 to 1 through the increment
disjunct. -/
theorem c7_access_count_witness :
    opCreatesAt (Op.get false "t" none 0) "t" = false ∧
    plainState.memoryClips "t" = some plainClip ∧
    (step idHash plainState (Op.get false "t" none 0)).memoryClips "t" =
      some { plainClip with accessCount := 1 } ∧
    (({ plainClip with accessCount := 1 } : Clip) = plainClip ∨
      (({ plainClip with accessCount := 1 } : Clip).accessCount =
          plainClip.accessCount + 1 ∧
        ∃ rerr pw now, Op.get false "t" none 0 = Op.get rerr "t" pw now ∧
          isExpired plainClip now = false ∧
          passwordRejects idHash plainClip pw = false ∧
          maxAccessRejects plainClip = false)) :=
  ⟨rfl, by decide, by decide,
   c7_access_count_increments_only_on_passing_read idHash plainState
     (Op.get false "t" none 0) "t" plainClip
     { plainClip with accessCount := 1 } rfl (by decide) (by decide)⟩

end Vaultx
